import Mathlib

/-!
Shallow embedding of the Windows stream transport layer (src/stream_win.c)
of the watchman repository, together with theorems settling the frozen
claims about it.

Modelling conventions:
 - bytes are `Nat`; the contents of buffers are `List Nat`;
 - the endpoint state `win_handle` mirrors `struct win_handle`.  The
   read staging buffer is represented by the list of its unread bytes
   (`read_data`): in the C code `read_cursor` is compacted back to the
   start of `read_buf` at the end of every `move_from_read_buffer` call
   and completions only append at `read_cursor + read_avail`, so at every
   function boundary the unread bytes sit at the front of the buffer and
   a list is a faithful representation (`read_avail = read_data.length`);
 - operating-system calls (`ReadFile`, `GetOverlappedResult`,
   `WriteFileEx` submission, `WaitForMultipleObjectsEx`, `CreateFileW`)
   are oracles: their outcome is passed in as a parameter, and where a
   claim depends on the documented OS contract that contract appears as
   a hypothesis of the theorem;
 - observable side effects that the claims talk about (allocation of an
   OperationContext, issuing an OS read, resetting the waitable event,
   freeing a queued write buffer) are recorded in the result structures.
-/

namespace StreamWin

abbrev Byte := Nat

def READ_BUF_SIZE : Nat := 8192
def FILE_TYPE_PIPE : Nat := 3
def ERROR_IO_PENDING : Nat := 997
def ERROR_IO_INCOMPLETE : Nat := 996
def ERROR_PIPE_BUSY : Nat := 231
def ERROR_FILE_NOT_FOUND : Nat := 2
def ERROR_SEM_TIMEOUT : Nat := 121
def MAXIMUM_WAIT_OBJECTS : Nat := 64
def WAIT_ABANDONED_0 : Nat := 128
def WAIT_TIMEOUT : Nat := 258
def WAIT_FAILED : Nat := 4294967295

/-- `struct write_buf`: a queued outbound buffer.  `remaining` is the
byte sequence from `cursor` to `cursor + len`; `id` identifies the
allocation so that frees can be tracked. -/
structure write_buf where
  id : Nat
  remaining : List Byte
  deriving Repr, DecidableEq

/-- `struct win_handle`: the per-endpoint state.  `read_data` is the
unread content of `read_buf` (see the module comment), `waitable` the
signalled state of the manual-reset event, `write_queue` the
`write_head .. write_tail` list. -/
structure win_handle where
  read_pending : Bool
  error_pending : Bool
  errcode : Nat
  file_type : Nat
  write_queue : List write_buf
  write_pending : Option write_buf
  read_data : List Byte
  blocking : Bool
  waitable : Bool
  deriving Repr, DecidableEq

/-- Outcome of a synchronous `ReadFile` call (blocking path). -/
inductive OsRead where
  | ok (bytes : List Byte)
  | fail (err : Nat)
  deriving Repr, DecidableEq

/-- Outcome of an overlapped `ReadFile` call (non-blocking path):
it may complete immediately, be queued (`ERROR_IO_PENDING`), or fail
with some other error. -/
inductive OsOverlappedRead where
  | immediate (bytes : List Byte)
  | pending
  | failed (err : Nat)
  deriving Repr, DecidableEq

/-- Outcome of `get_overlapped_result_ex` on a pending read. -/
inductive OsOlapResult where
  | ok (bytes : List Byte)
  | incomplete
  | fail (err : Nat)
  deriving Repr, DecidableEq

/-- Which return site of `win_read` produced the result. -/
inductive ReadTag where
  | pendingBusy
  | sticky (code : Nat)
  | fromRead
  deriving Repr, DecidableEq

/-- Result of a read call, with the observable side effects the claims
mention: whether a read OperationContext was allocated, whether an OS
read was issued, and whether `ResetEvent(h->waitable)` was called. -/
structure ReadResult where
  result : Int
  tag : ReadTag
  h : win_handle
  opCtxCreated : Bool
  osReadIssued : Bool
  eventReset : Bool
  deriving Repr, DecidableEq

/-- `move_from_read_buffer`: copy `min size read_avail` bytes out of the
staging buffer; returns the delivered bytes and the remaining buffer
content (the C code then compacts the buffer to the front). -/
def move_from_read_buffer (readData : List Byte) (size : Nat) :
    List Byte × List Byte :=
  let nread := min size readData.length
  (readData.take nread, readData.drop nread)

/-- `win_read_blocking` (src/stream_win.c:220-249): satisfy from the
buffer first; if fully satisfied return; otherwise issue a synchronous
`ReadFile` for the remainder.  On OS failure, a nonzero count already
taken from the buffer is returned as success. -/
def win_read_blocking (h : win_handle) (size : Nat) (os : OsRead) :
    ReadResult :=
  let nread := min size h.read_data.length
  let h1 := { h with read_data := h.read_data.drop nread }
  let total_read := nread
  if size - nread = 0 then
    ⟨(total_read : Int), .fromRead, h1, false, false, false⟩
  else
    match os with
    | .ok bytes =>
        ⟨((total_read + bytes.length : Nat) : Int), .fromRead, h1,
          false, true, false⟩
    | .fail _err =>
        if total_read ≠ 0 then
          ⟨(total_read : Int), .fromRead, h1, false, true, false⟩
        else
          ⟨-1, .fromRead, h1, false, true, false⟩

/-- `win_read_non_blocking` (src/stream_win.c:251-305): satisfy from the
buffer, then unconditionally allocate a read OperationContext, reset the
waitable event when the buffer was fully drained, and issue an
overlapped `ReadFile` into the unused tail of the buffer.  If the OS
completes it immediately the new bytes are accounted and a second pass
over the buffer is made; otherwise the call returns what was assembled,
or -1 when nothing was. -/
def win_read_non_blocking (h : win_handle) (size : Nat)
    (os : OsOverlappedRead) : ReadResult :=
  let nread := min size h.read_data.length
  let h1 := { h with read_data := h.read_data.drop nread }
  let total_read := nread
  let size1 := size - nread
  let evReset := h1.read_data.length == 0
  let h2 := if evReset then { h1 with waitable := false } else h1
  match os with
  | .immediate bytes =>
      let h3 := { h2 with read_data := h2.read_data ++ bytes,
                          read_pending := false }
      let nread2 := min size1 h3.read_data.length
      let h4 := { h3 with read_data := h3.read_data.drop nread2 }
      ⟨((total_read + nread2 : Nat) : Int), .fromRead, h4, true, true,
        evReset⟩
  | .pending =>
      let h3 := { h2 with read_pending := true }
      ⟨if total_read = 0 then -1 else (total_read : Int), .fromRead, h3,
        true, true, evReset⟩
  | .failed _err =>
      let h3 := { h2 with read_pending := false }
      ⟨if total_read = 0 then -1 else (total_read : Int), .fromRead, h3,
        true, true, evReset⟩

/-- `win_read_handle_completion` (src/stream_win.c:179-218): if a read
is pending, poll its status; on completion account the bytes, on a
failure other than `ERROR_IO_INCOMPLETE` latch the sticky error.
Returns whether a read is still pending. -/
def win_read_handle_completion (h : win_handle) (os : OsOlapResult) :
    Bool × win_handle :=
  if h.read_pending = false then (false, h)
  else
    match os with
    | .ok bytes =>
        (false, { h with read_data := h.read_data ++ bytes,
                         read_pending := false })
    | .incomplete => (true, h)
    | .fail err =>
        (false, { h with read_pending := false, errcode := err,
                         error_pending := true })

/-- `win_read` (src/stream_win.c:307-327): check a pending read first
(still-pending means EAGAIN); then report a latched sticky error once,
clearing it; otherwise dispatch on the blocking flag. -/
def win_read (h : win_handle) (size : Nat) (osc : OsOlapResult)
    (osb : OsRead) (osn : OsOverlappedRead) : ReadResult :=
  let hc := win_read_handle_completion h osc
  if hc.1 then
    ⟨-1, .pendingBusy, hc.2, false, false, false⟩
  else if hc.2.error_pending then
    ⟨-1, .sticky hc.2.errcode, { hc.2 with error_pending := false },
      false, false, false⟩
  else if hc.2.blocking then
    win_read_blocking hc.2 size osb
  else
    win_read_non_blocking hc.2 size osn

/-- Outcome of a synchronous `WriteFile` call (blocking fast path). -/
inductive OsWriteFile where
  | ok (bytes : Nat)
  | fail (err : Nat)
  deriving Repr, DecidableEq

/-- Result of `initiate_write`.  When the `WriteFileEx` submission fails
the popped buffer is neither re-queued nor in flight any more; it is
recorded in `droppedBuf`. -/
structure InitiateOut where
  h : win_handle
  droppedBuf : Option write_buf
  deriving Repr, DecidableEq

/-- `initiate_write` (src/stream_win.c:377-401): if nothing is in flight
and the queue is non-empty, pop the head, allocate a write
OperationContext for it and submit it with `WriteFileEx`; on submission
failure the context is freed (and the buffer is left dangling). -/
def initiate_write (h : win_handle) (submitOk : Bool) : InitiateOut :=
  match h.write_pending, h.write_queue with
  | some _, _ => ⟨h, none⟩
  | none, [] => ⟨h, none⟩
  | none, wbuf :: rest =>
      if submitOk then
        ⟨{ h with write_queue := rest, write_pending := some wbuf }, none⟩
      else
        ⟨{ h with write_queue := rest, write_pending := none }, some wbuf⟩

/-- Result of `win_write`, recording the freshly allocated write buffer
(`appended`) and the queue contents at the moment of the append. -/
structure WriteOut where
  result : Int
  h : win_handle
  appended : Option write_buf
  queueAtAppend : List write_buf
  droppedBuf : Option write_buf
  deriving Repr, DecidableEq

/-- `win_write` (src/stream_win.c:403-447): for a blocking non-pipe
handle with an empty queue, try a direct synchronous write (latching the
sticky error and signalling the event on failure).  Otherwise copy the
payload into a new `write_buf`, append it at the queue tail and, when no
write is in flight, initiate transmission of the queue head.  `newId`
names the fresh allocation, `mallocOk` is the allocator oracle. -/
def win_write (h : win_handle) (payload : List Byte) (newId : Nat)
    (mallocOk : Bool) (osw : OsWriteFile) (submitOk : Bool) : WriteOut :=
  if h.file_type ≠ FILE_TYPE_PIPE ∧ h.blocking = true ∧ h.write_queue = [] then
    match osw with
    | .ok bytes => ⟨(bytes : Int), h, none, h.write_queue, none⟩
    | .fail err =>
        ⟨-1, { h with errcode := err, error_pending := true,
                      waitable := true },
          none, h.write_queue, none⟩
  else if mallocOk = false then
    ⟨-1, h, none, h.write_queue, none⟩
  else
    let wbuf : write_buf := ⟨newId, payload⟩
    let q1 := h.write_queue ++ [wbuf]
    let h1 := { h with write_queue := q1 }
    match h1.write_pending with
    | none =>
        let io := initiate_write h1 submitOk
        ⟨(payload.length : Int), io.h, some wbuf, q1, io.droppedBuf⟩
    | some _ =>
        ⟨(payload.length : Int), h1, some wbuf, q1, none⟩

/-- `write_completed` (src/stream_win.c:331-374): the completion
callback clears the in-flight marker; on success it advances the
buffer's cursor and frees a fully-sent buffer (a short completion is
fatal); on failure it latches the sticky error and signals the event;
either way it then re-initiates transmission of the queue head. -/
def write_completed (h : win_handle) (err : Nat) (bytes : Nat)
    (wbuf : write_buf) (submitOk : Bool) : InitiateOut :=
  let h1 := { h with write_pending := none }
  if err = 0 then
    if wbuf.remaining.length - bytes = 0 then
      (initiate_write h1 submitOk)
    else
      -- short write: w_log(W_LOG_FATAL, ...) aborts; modelled as the
      -- state just before the abort
      ⟨h1, none⟩
  else
    initiate_write
      { h1 with errcode := err, error_pending := true, waitable := true }
      submitOk

/-- Result of `win_close`: which OperationContexts were freed, the ids
of the write buffers freed by the queue drain loop, and whether that
loop ran at all. -/
structure CloseOut where
  freedReadOp : Bool
  freedWriteOp : Bool
  freedBufIds : List Nat
  drainRan : Bool
  result : Int
  deriving Repr, DecidableEq

/-- `win_close` (src/stream_win.c:111-149): cancel a pending read
(freeing its context only if the OS confirms the cancel), likewise for a
pending write, and — only inside the branch taken when a write was
pending — drain the write queue, freeing each buffer; then close the
handle and the event and free the endpoint. -/
def win_close (h : win_handle) (cancelReadOk cancelWriteOk : Bool) :
    CloseOut :=
  let freedRead := h.read_pending && cancelReadOk
  match h.write_pending with
  | some _ =>
      ⟨freedRead, cancelWriteOk, h.write_queue.map (fun b => b.id), true, 0⟩
  | none =>
      ⟨freedRead, false, [], false, 0⟩

/-- Two's-complement reinterpretation of a value as a signed 32-bit
`int`, used to model C `int` arithmetic with wraparound. -/
def toInt32 (x : Int) : Int :=
  let r := x % (4294967296 : Int)
  if r < 2147483648 then r else r - 4294967296

/-- The timeout bookkeeping of the `retry_connect` loop
(src/stream_win.c:576-578): `timeoutms -= (DWORD)(GetTickCount64() -
deadline)`.  `now` and `deadline` are tick counts (`DWORD64`); the
subtraction is unsigned 64-bit, truncated to `DWORD`, then subtracted
from the `int` `timeoutms` with the usual C conversions. -/
def connect_timeout_update (timeoutms : Int) (now deadline : Nat) : Int :=
  if timeoutms > 0 then
    let diff64 := (18446744073709551616 + now - deadline) % 18446744073709551616
    let diff32 := diff64 % 4294967296
    toInt32 (timeoutms - (diff32 : Int))
  else timeoutms

/-- Decision taken by one `retry_connect` iteration after `CreateFile`
failed with `err` (src/stream_win.c:575-584). -/
inductive ConnectStep where
  | failStop (errcode : Nat)
  | retryWait (newTimeout : Int)
  deriving Repr, DecidableEq

/-- After a failed `CreateFile`, update the remaining timeout, then
either give up — returning NULL with errno mapped from the `CreateFile`
error — or proceed to `WaitNamedPipe` with the updated timeout
(src/stream_win.c:575-587). -/
def connect_retry_decision (timeoutms : Int) (now deadline : Nat)
    (err : Nat) : ConnectStep :=
  let t := connect_timeout_update timeoutms now deadline
  if t ≤ 0 ∨ (err ≠ ERROR_PIPE_BUSY ∧ err ≠ ERROR_FILE_NOT_FOUND) then
    .failStop err
  else
    .retryWait t

/-- One entry of `struct watchman_event_poll`: the signalled state of
the endpoint's event at call time, and the `ready` output flag. -/
structure watchman_event_poll where
  signaled : Bool
  ready : Bool
  deriving Repr, DecidableEq

/-- Outcome of `w_poll_events`.  `fatal` models `w_log(W_LOG_FATAL, ...)`.
Modelled from the spec: the logging sink is not under src/; per the spec
a request for more endpoints than the maximum "is a programmer error and
must abort loudly (not a recoverable error)", so a fatal log terminates
the process instead of returning. -/
inductive PollOutcome where
  | fatal (n : Nat)
  | ret (r : Int) (p : List watchman_event_poll)
  deriving Repr, DecidableEq

/-- `p[i].ready = true` on the i-th entry. -/
def set_ready : List watchman_event_poll → Nat → List watchman_event_poll
  | [], _ => []
  | e :: rest, 0 => { e with ready := true } :: rest
  | e :: rest, i + 1 => e :: set_ready rest i

/-- `w_poll_events` (src/stream_win.c:602-635): abort fatally when asked
for more than `MAXIMUM_WAIT_OBJECTS - 1` endpoints; clear every ready
flag; wait (`res` is the `WaitForMultipleObjectsEx` oracle); `-1` on
`WAIT_FAILED`, mark the single reported index ready and return 1 when
`res` falls in the object or abandoned range, 0 otherwise. -/
def w_poll_events (p : List watchman_event_poll) (_timeoutms : Int)
    (res : Nat) : PollOutcome :=
  let n := p.length
  if n > MAXIMUM_WAIT_OBJECTS - 1 then .fatal n
  else
    let p0 := p.map (fun e => { e with ready := false })
    if res = WAIT_FAILED then .ret (-1) p0
    else if res < n then .ret 1 (set_ready p0 res)
    else if WAIT_ABANDONED_0 ≤ res ∧ res < WAIT_ABANDONED_0 + n then
      .ret 1 (set_ready p0 (res - WAIT_ABANDONED_0))
    else .ret 0 p0

/-- Number of entries marked ready. -/
def readyCount (p : List watchman_event_poll) : Nat :=
  (p.filter (fun e => e.ready)).length

/-- POSIX-style open flags, modelled as the individual bits that
`w_handle_open` tests. -/
structure open_flags where
  wronly : Bool
  rdwr : Bool
  creat : Bool
  excl : Bool
  trunc : Bool
  cloexec : Bool
  directory : Bool
  deriving Repr, DecidableEq

/-- The `CreateFileW` creation disposition selected from the flags. -/
inductive CreateDisposition where
  | create_new
  | create_always
  | open_always
  | truncate_existing
  | open_existing
  deriving Repr, DecidableEq

/-- The request `w_handle_open` hands to the OS: the (possibly
translated) path and the parameters computed from the flags. -/
structure OpenAttempt where
  path : String
  genericWrite : Bool
  genericRead : Bool
  inheritHandle : Bool
  disposition : CreateDisposition
  backupSemantics : Bool
  deriving Repr, DecidableEq

/-- `w_handle_open` (src/stream_win.c:638-694), up to the `CreateFileW`
call: translate the literal path `/dev/null` to the native null device
`NUL:`, then compute access mode, inheritance and creation disposition
from the flags. -/
def w_handle_open_attempt (path : String) (flags : open_flags) :
    OpenAttempt :=
  let path := if path = "/dev/null" then "NUL:" else path
  { path := path
    genericWrite := flags.wronly || flags.rdwr
    genericRead := !flags.wronly
    inheritHandle := !flags.cloexec
    disposition :=
      if flags.creat && flags.excl then .create_new
      else if flags.creat && flags.trunc then .create_always
      else if flags.creat then .open_always
      else if flags.trunc then .truncate_existing
      else .open_existing
    backupSemantics := flags.directory }

/-- `w_handle_open`: build the attempt and hand it to the OS oracle
(`none` models `INVALID_HANDLE_VALUE`, covering also a failed path
conversion). -/
def w_handle_open (path : String) (flags : open_flags)
    (os : OpenAttempt → Option Nat) : Option Nat :=
  os (w_handle_open_attempt path flags)

/-! ## Helper lemmas -/

lemma win_read_blocking_tag (h : win_handle) (size : Nat) (os : OsRead) :
    (win_read_blocking h size os).tag = .fromRead := by
  unfold win_read_blocking
  cases os <;> dsimp only <;> split <;> first | rfl | (split <;> rfl)

lemma win_read_non_blocking_tag (h : win_handle) (size : Nat)
    (os : OsOverlappedRead) :
    (win_read_non_blocking h size os).tag = .fromRead := by
  unfold win_read_non_blocking
  cases os <;> dsimp only <;> split <;> rfl

lemma set_ready_length (p : List watchman_event_poll) (i : Nat) :
    (set_ready p i).length = p.length := by
  induction p generalizing i with
  | nil => rfl
  | cons e rest ih =>
      cases i with
      | zero => rfl
      | succ i => simp [set_ready, ih]

lemma set_ready_getElem? (p : List watchman_event_poll) (j k : Nat) :
    (set_ready p j)[k]? =
      (p[k]?).map (fun e => if k = j then { e with ready := true } else e) := by
  induction p generalizing j k with
  | nil => simp [set_ready]
  | cons e rest ih =>
      cases j with
      | zero =>
          cases k with
          | zero => simp [set_ready]
          | succ k => simp [set_ready]
      | succ j =>
          cases k with
          | zero => simp [set_ready]
          | succ k => simp [set_ready, ih]

lemma readyCount_clear (p : List watchman_event_poll) :
    readyCount (p.map (fun e => { e with ready := false })) = 0 := by
  induction p with
  | nil => rfl
  | cons e rest ih => simpa [readyCount, List.filter] using ih

lemma readyCount_set_ready_le (p : List watchman_event_poll) (i : Nat) :
    readyCount (set_ready p i) ≤ readyCount p + 1 := by
  induction p generalizing i with
  | nil => simp [set_ready, readyCount]
  | cons e rest ih =>
      cases i with
      | zero =>
          cases he : e.ready <;>
            simp [set_ready, readyCount, List.filter, he] <;> omega
      | succ i =>
          cases he : e.ready <;>
            · have := ih i
              simp [set_ready, readyCount, List.filter, he] at this ⊢
              omega

/-! ## Claim theorems -/

/-- Concrete endpoint used to refute claim C1: non-blocking, nothing
pending, no sticky error, four bytes buffered. -/
def c1_state : win_handle :=
  ⟨false, false, 0, FILE_TYPE_PIPE, [], none, [1, 2, 3, 4], false, true⟩

/-- C1 counterexample: with the claim's preconditions satisfied
(non-blocking, size 4 ≤ read_avail 4, no read pending, no sticky error)
the read does return the requested count, but a new read
OperationContext is allocated, an OS read is issued, and the waitable
event is reset — contradicting "without initiating any new OS read
operation (no new read OperationContext is created and the waitable
event is not reset)". -/
theorem c1_fully_buffered_read_still_issues_os_read :
    c1_state.blocking = false ∧ c1_state.read_pending = false ∧
    c1_state.error_pending = false ∧ 4 ≤ c1_state.read_data.length ∧
    (win_read c1_state 4 .incomplete (.fail 0) .pending).result = 4 ∧
    (win_read c1_state 4 .incomplete (.fail 0) .pending).opCtxCreated = true ∧
    (win_read c1_state 4 .incomplete (.fail 0) .pending).osReadIssued = true ∧
    (win_read c1_state 4 .incomplete (.fail 0) .pending).eventReset = true := by
  decide

/-- C1 (amended): a non-blocking read whose requested size is fully
satisfiable from the buffer (size ≤ read_avail, no read pending, no
sticky error) returns the requested count, but it always allocates a new
read OperationContext and issues an overlapped OS read into the unused
tail of the buffer; the waitable event is reset exactly when the copy
drained the buffer completely (size = read_avail). -/
theorem c1_amended_fully_buffered_read (h : win_handle) (size : Nat)
    (osc : OsOlapResult) (osb : OsRead) (osn : OsOverlappedRead)
    (hb : h.blocking = false) (hp : h.read_pending = false)
    (he : h.error_pending = false) (hs : 1 ≤ size)
    (hsz : size ≤ h.read_data.length) :
    (win_read h size osc osb osn).result = (size : Int) ∧
    (win_read h size osc osb osn).opCtxCreated = true ∧
    (win_read h size osc osb osn).osReadIssued = true ∧
    ((win_read h size osc osb osn).eventReset = true ↔
      size = h.read_data.length) := by
  have hmin : min size h.read_data.length = size := Nat.min_eq_left hsz
  have hne : size ≠ 0 := by omega
  simp only [win_read, win_read_handle_completion, hp, he, hb,
    Bool.false_eq_true, if_false, reduceIte, if_true]
  unfold win_read_non_blocking
  cases osn <;>
    simp [hmin, hne, List.length_drop, Nat.beq_eq_true_eq] <;>
    omega

/-- Concrete input for the C1 amended-claim witness. -/
def c1_wit_state : win_handle :=
  ⟨false, false, 0, FILE_TYPE_PIPE, [], none, [10, 20, 30], false, true⟩

/-- Witness for the amended C1 theorem at a concrete input. -/
theorem c1_amended_fully_buffered_read_witness :
    (win_read c1_wit_state 2 .incomplete (.fail 0) .pending).result = 2 ∧
    (win_read c1_wit_state 2 .incomplete (.fail 0) .pending).opCtxCreated = true ∧
    (win_read c1_wit_state 2 .incomplete (.fail 0) .pending).osReadIssued = true ∧
    ((win_read c1_wit_state 2 .incomplete (.fail 0) .pending).eventReset = true ↔
      2 = c1_wit_state.read_data.length) :=
  c1_amended_fully_buffered_read c1_wit_state 2 .incomplete (.fail 0)
    .pending (by decide) (by decide) (by decide) (by decide) (by decide)

/-- C2: when the sticky error slot is set and no read is in flight, the
next Read reports the latched code (result -1 through the sticky-error
return site) and clears the flag; any subsequent Read on the resulting
state never reports through the sticky-error site again, whatever the
request size and OS outcomes. -/
theorem c2_sticky_error_surfaced_exactly_once (h : win_handle)
    (size size2 : Nat) (osc osc2 : OsOlapResult) (osb osb2 : OsRead)
    (osn osn2 : OsOverlappedRead)
    (he : h.error_pending = true) (hp : h.read_pending = false) :
    (win_read h size osc osb osn).result = -1 ∧
    (win_read h size osc osb osn).tag = .sticky h.errcode ∧
    (win_read h size osc osb osn).h.error_pending = false ∧
    (∀ c : Nat,
      (win_read (win_read h size osc osb osn).h size2 osc2 osb2 osn2).tag ≠
        .sticky c) := by
  have hfirst : win_read h size osc osb osn =
      ⟨-1, .sticky h.errcode, { h with error_pending := false }, false,
        false, false⟩ := by
    simp [win_read, win_read_handle_completion, hp, he]
  refine ⟨by rw [hfirst], by rw [hfirst], by rw [hfirst], ?_⟩
  intro c
  rw [hfirst]
  simp only [win_read, win_read_handle_completion, hp,
    Bool.false_eq_true, if_false, reduceIte, if_true]
  by_cases hb : h.blocking = true <;>
    simp [hb, win_read_blocking_tag, win_read_non_blocking_tag]

/-- Concrete endpoint with a latched error for the C2 witness. -/
def c2_state : win_handle :=
  ⟨false, true, 5, FILE_TYPE_PIPE, [], none, [], true, true⟩

/-- Witness for the C2 theorem at a concrete input. -/
theorem c2_sticky_error_surfaced_exactly_once_witness :
    (win_read c2_state 3 .incomplete (.ok [9]) .pending).result = -1 ∧
    (win_read c2_state 3 .incomplete (.ok [9]) .pending).tag =
      .sticky c2_state.errcode ∧
    (win_read c2_state 3 .incomplete (.ok [9]) .pending).h.error_pending =
      false ∧
    (∀ c : Nat,
      (win_read (win_read c2_state 3 .incomplete (.ok [9]) .pending).h 3
          .incomplete (.ok [9]) .pending).tag ≠ .sticky c) :=
  c2_sticky_error_surfaced_exactly_once c2_state 3 3 .incomplete .incomplete
    (.ok [9]) (.ok [9]) .pending .pending (by decide) (by decide)

/-- Endpoint at Close time with one queued write buffer and no write in
flight. -/
def c3_state : win_handle :=
  ⟨false, false, 0, FILE_TYPE_PIPE, [⟨1, [42]⟩], none, [], true, true⟩

/-- C3: the queue-drain loop of `win_close` sits inside the
`if (h->write_pending)` branch, so an endpoint closed with a non-empty
write queue but no write in flight frees none of its queued
WriteBuffers — they leak, contrary to the claim (and to the spec's
"discards all queued write buffers"). -/
theorem c3_close_leaks_queue_when_no_write_pending :
    c3_state.write_pending = none ∧ c3_state.write_queue ≠ [] ∧
    (win_close c3_state true true).freedBufIds = [] ∧
    (win_close c3_state true true).drainRan = false := by
  decide

/-- C4: the remaining-time bookkeeping of the connect retry loop is
inverted.  `timeoutms -= (DWORD)(GetTickCount64() - deadline)` subtracts
`now - deadline` (negative before the deadline, wrapped through unsigned
arithmetic) instead of the elapsed time, so it adds the remaining time:
with a 100ms budget and 10ms elapsed the "remaining" budget becomes
190ms — it grows instead of strictly decreasing.  And when the budget is
finally exhausted on a path that never exists, the loop exits with the
mapped `CreateFile` error (`ERROR_FILE_NOT_FOUND`), not a timeout
code. -/
theorem c4_connect_timeout_accounting_inverted :
    connect_timeout_update 100 10 100 = 190 ∧ (100 : Int) < 190 ∧
    connect_retry_decision 100 10 100 ERROR_PIPE_BUSY = .retryWait 190 ∧
    connect_retry_decision 100 250 100 ERROR_FILE_NOT_FOUND =
      .failStop ERROR_FILE_NOT_FOUND := by
  decide

/-- C5: when exactly one of at most 63 endpoints has its event signaled
at call time — so that by the `WaitForMultipleObjectsEx` contract the
wait returns that endpoint's index `j` — `w_poll_events` returns 1 and
marks exactly endpoint `j` ready; and when no event is signaled and the
timeout is 0, the wait returns `WAIT_TIMEOUT` and `w_poll_events`
returns 0 with every ready flag false. -/
theorem c5_poll_marks_exactly_the_signaled_endpoint
    (p : List watchman_event_poll) (j : Nat) (t : Int)
    (hn : p.length ≤ 63) (hj : j < p.length)
    (hsig : ∀ i (hi : i < p.length), ((p.get ⟨i, hi⟩).signaled = true ↔ i = j)) :
    (∃ q, w_poll_events p t j = .ret 1 q ∧ q.length = p.length ∧
        ∀ i e, q[i]? = some e → (e.ready = true ↔ i = j)) ∧
    (w_poll_events p 0 WAIT_TIMEOUT =
      .ret 0 (p.map (fun e => { e with ready := false }))) := by
  constructor
  · refine ⟨set_ready (p.map (fun e => { e with ready := false })) j, ?_, ?_, ?_⟩
    · have h1 : ¬ p.length > MAXIMUM_WAIT_OBJECTS - 1 := by
        unfold MAXIMUM_WAIT_OBJECTS; omega
      have h2 : ¬ j = WAIT_FAILED := by unfold WAIT_FAILED; omega
      simp only [w_poll_events]
      rw [if_neg h1, if_neg h2, if_pos hj]
    · rw [set_ready_length, List.length_map]
    · intro i e hi
      rw [set_ready_getElem?] at hi
      rcases hie : (p.map (fun e => { e with ready := false }))[i]? with _ | e0
      · rw [hie] at hi; simp at hi
      · rw [hie] at hi
        simp only [Option.map_some'] at hi
        rcases List.getElem?_eq_some_iff.1 hie with ⟨hlt, _⟩
        by_cases hij : i = j
        · simp [hij] at hi
          simp [← hi, hij]
        · simp [hij] at hi
          have : e0.ready = false := by
            rcases List.getElem?_eq_some_iff.1 hie with ⟨hlt2, heq⟩
            rw [List.getElem_map] at heq
            rw [← heq]
          simp [← hi, this, hij]
  · have h1 : ¬ p.length > MAXIMUM_WAIT_OBJECTS - 1 := by
      unfold MAXIMUM_WAIT_OBJECTS; omega
    have h2 : ¬ WAIT_TIMEOUT = WAIT_FAILED := by decide
    have h3 : ¬ WAIT_TIMEOUT < p.length := by unfold WAIT_TIMEOUT; omega
    have h4 : ¬ (WAIT_ABANDONED_0 ≤ WAIT_TIMEOUT ∧
        WAIT_TIMEOUT < WAIT_ABANDONED_0 + p.length) := by
      unfold WAIT_ABANDONED_0 WAIT_TIMEOUT; omega
    simp only [w_poll_events]
    rw [if_neg h1, if_neg h2, if_neg h3, if_neg h4]

/-- Concrete three-endpoint input for the C5 witness: only index 1 is
signaled. -/
def c5_entries : List watchman_event_poll :=
  [⟨false, true⟩, ⟨true, true⟩, ⟨false, true⟩]

/-- Witness for the C5 theorem at a concrete input. -/
theorem c5_poll_marks_exactly_the_signaled_endpoint_witness :
    (∃ q, w_poll_events c5_entries 7 1 = .ret 1 q ∧
        q.length = c5_entries.length ∧
        ∀ i e, q[i]? = some e → (e.ready = true ↔ i = 1)) ∧
    (w_poll_events c5_entries 0 WAIT_TIMEOUT =
      .ret 0 (c5_entries.map (fun e => { e with ready := false }))) :=
  c5_poll_marks_exactly_the_signaled_endpoint c5_entries 1 7 (by decide)
    (by decide) (by decide)

/-- C6: a poll over more than `MAXIMUM_WAIT_OBJECTS - 1` endpoints hits
the fatal-log branch — the call aborts instead of returning any
(recoverable) value. -/
theorem c6_poll_over_limit_is_fatal (p : List watchman_event_poll)
    (t : Int) (res : Nat) (hn : p.length > MAXIMUM_WAIT_OBJECTS - 1) :
    w_poll_events p t res = .fatal p.length := by
  unfold w_poll_events
  simp only [hn, if_true, reduceIte]

/-- Witness for the C6 theorem: 64 endpoints exceed the limit of 63. -/
theorem c6_poll_over_limit_is_fatal_witness :
    w_poll_events (List.replicate 64 ⟨false, false⟩) 0 0 =
      .fatal (List.replicate (α := watchman_event_poll) 64 ⟨false, false⟩).length :=
  c6_poll_over_limit_is_fatal (List.replicate 64 ⟨false, false⟩) 0 0
    (by decide)

/-- C9: whatever the OS wait reports (`res` arbitrary) and whatever the
incoming ready flags were, a poll over at most 63 endpoints returns -1,
0 or 1 and marks at most one endpoint ready: all flags are cleared on
entry and at most the single reported index is set. -/
theorem c9_poll_marks_at_most_one (p : List watchman_event_poll)
    (t : Int) (res : Nat) (hn : p.length ≤ 63) :
    ∃ r q, w_poll_events p t res = .ret r q ∧
      (r = -1 ∨ r = 0 ∨ r = 1) ∧ readyCount q ≤ 1 := by
  have h1 : ¬ p.length > MAXIMUM_WAIT_OBJECTS - 1 := by
    unfold MAXIMUM_WAIT_OBJECTS; omega
  simp only [w_poll_events]
  rw [if_neg h1]
  by_cases h2 : res = WAIT_FAILED
  · rw [if_pos h2]
    exact ⟨-1, _, rfl, by norm_num, by simp [readyCount_clear]⟩
  · rw [if_neg h2]
    by_cases h3 : res < p.length
    · rw [if_pos h3]
      refine ⟨1, _, rfl, by norm_num, ?_⟩
      calc readyCount (set_ready (p.map (fun e => { e with ready := false })) res)
          ≤ readyCount (p.map (fun e => { e with ready := false })) + 1 :=
            readyCount_set_ready_le _ _
        _ ≤ 1 := by rw [readyCount_clear]
    · rw [if_neg h3]
      by_cases h4 : WAIT_ABANDONED_0 ≤ res ∧ res < WAIT_ABANDONED_0 + p.length
      · rw [if_pos h4]
        refine ⟨1, _, rfl, by norm_num, ?_⟩
        calc readyCount
              (set_ready (p.map (fun e => { e with ready := false }))
                (res - WAIT_ABANDONED_0))
            ≤ readyCount (p.map (fun e => { e with ready := false })) + 1 :=
              readyCount_set_ready_le _ _
          _ ≤ 1 := by rw [readyCount_clear]
      · rw [if_neg h4]
        exact ⟨0, _, rfl, by norm_num, by simp [readyCount_clear]⟩

/-- Concrete two-endpoint input for the C9 witness, with both events
reported abandoned-range and stale ready flags set on entry. -/
def c9_entries : List watchman_event_poll :=
  [⟨true, true⟩, ⟨true, true⟩]

/-- Witness for the C9 theorem at a concrete input. -/
theorem c9_poll_marks_at_most_one_witness :
    ∃ r q, w_poll_events c9_entries 0 129 = .ret r q ∧
      (r = -1 ∨ r = 0 ∨ r = 1) ∧ readyCount q ≤ 1 :=
  c9_poll_marks_at_most_one c9_entries 0 129 (by decide)

/-- C7: a blocking Read that copies at least one byte out of the local
buffer (read_avail ≥ 1) and then has the synchronous OS read for the
remainder (requested size > read_avail) fail returns the buffered count
as success, not an error. -/
theorem c7_blocking_partial_from_buffer_never_fails (h : win_handle)
    (size err : Nat) (osc : OsOlapResult) (osn : OsOverlappedRead)
    (hb : h.blocking = true) (hp : h.read_pending = false)
    (he : h.error_pending = false) (h1 : 1 ≤ h.read_data.length)
    (h2 : h.read_data.length < size) :
    (win_read h size osc (.fail err) osn).result =
      (h.read_data.length : Int) ∧
    0 < (win_read h size osc (.fail err) osn).result := by
  have hmin : min size h.read_data.length = h.read_data.length :=
    Nat.min_eq_right (Nat.le_of_lt h2)
  have hrem : ¬ size - h.read_data.length = 0 := by omega
  have hlen : ¬ h.read_data.length = 0 := by omega
  constructor
  · simp [win_read, win_read_handle_completion, hp, he, hb,
      win_read_blocking, hmin, hrem, hlen]
  · simp [win_read, win_read_handle_completion, hp, he, hb,
      win_read_blocking, hmin, hrem, hlen]
    omega

/-- Concrete blocking endpoint with two buffered bytes for the C7
witness: a five-byte request whose OS remainder read fails returns 2. -/
def c7_state : win_handle :=
  ⟨false, false, 0, FILE_TYPE_PIPE, [], none, [7, 8], true, true⟩

/-- Witness for the C7 theorem at a concrete input. -/
theorem c7_blocking_partial_from_buffer_never_fails_witness :
    (win_read c7_state 5 .incomplete (.fail 3) .pending).result =
      (c7_state.read_data.length : Int) ∧
    0 < (win_read c7_state 5 .incomplete (.fail 3) .pending).result :=
  c7_blocking_partial_from_buffer_never_fails c7_state 5 3 .incomplete
    .pending (by decide) (by decide) (by decide) (by decide) (by decide)

/-- C8: every Write that takes the queued path (the blocking non-pipe
empty-queue fast path does not apply) and whose allocation succeeds
copies the whole payload into a fresh WriteBuffer, appends it at the
tail of the write queue before returning, and returns the payload
length, for any OS outcome of the transmission initiated afterwards. -/
theorem c8_write_copies_payload_to_queue_tail (h : win_handle)
    (payload : List Byte) (newId : Nat) (osw : OsWriteFile)
    (submitOk : Bool)
    (hq : ¬ (h.file_type ≠ FILE_TYPE_PIPE ∧ h.blocking = true ∧
        h.write_queue = [])) :
    (win_write h payload newId true osw submitOk).result =
      (payload.length : Int) ∧
    (win_write h payload newId true osw submitOk).appended =
      some ⟨newId, payload⟩ ∧
    (win_write h payload newId true osw submitOk).queueAtAppend =
      h.write_queue ++ [⟨newId, payload⟩] := by
  unfold win_write
  rw [if_neg hq]
  cases hwp : h.write_pending <;>
    simp [hwp, initiate_write]

/-- Concrete non-blocking pipe endpoint for the C8 witness. -/
def c8_state : win_handle :=
  ⟨false, false, 0, FILE_TYPE_PIPE, [], none, [], true, true⟩

/-- Witness for the C8 theorem at a concrete input. -/
theorem c8_write_copies_payload_to_queue_tail_witness :
    (win_write c8_state [1, 2, 3] 9 true (.ok 0) true).result = 3 ∧
    (win_write c8_state [1, 2, 3] 9 true (.ok 0) true).appended =
      some ⟨9, [1, 2, 3]⟩ ∧
    (win_write c8_state [1, 2, 3] 9 true (.ok 0) true).queueAtAppend =
      c8_state.write_queue ++ [⟨9, [1, 2, 3]⟩] :=
  c8_write_copies_payload_to_queue_tail c8_state [1, 2, 3] 9 (.ok 0) true
    (by decide)

/-- C10: an open of exactly the path `/dev/null` is translated to the
native null device `NUL:` before the OS open is attempted, so whenever
the OS can open `NUL:` the call succeeds. -/
theorem c10_dev_null_translated_to_nul (flags : open_flags)
    (os : OpenAttempt → Option Nat)
    (hos : ∀ a, a.path = "NUL:" → (os a).isSome = true) :
    (w_handle_open_attempt "/dev/null" flags).path = "NUL:" ∧
    (w_handle_open "/dev/null" flags os).isSome = true := by
  have hpath : (w_handle_open_attempt "/dev/null" flags).path = "NUL:" := by
    simp [w_handle_open_attempt]
  exact ⟨hpath, hos _ hpath⟩

/-- Concrete flags for the C10 witness: plain read/write open. -/
def c10_flags : open_flags :=
  ⟨false, true, false, false, false, false, false⟩

/-- Concrete OS oracle for the C10 witness: only the null device
opens. -/
def c10_os (a : OpenAttempt) : Option Nat :=
  if a.path = "NUL:" then some 1 else none

/-- Witness for the C10 theorem at a concrete input. -/
theorem c10_dev_null_translated_to_nul_witness :
    (w_handle_open_attempt "/dev/null" c10_flags).path = "NUL:" ∧
    (w_handle_open "/dev/null" c10_flags c10_os).isSome = true :=
  c10_dev_null_translated_to_nul c10_flags c10_os
    (by intro a ha; simp [c10_os, ha])

end StreamWin
